import Mathlib

/-!
Shallow embedding of the FixMyTown backend (TypeScript/Express/Supabase).

The database (Supabase tables `users`, `reports`, `votes`) is modelled as an
explicit state of three lists; each service method becomes a pure function
from the state (plus the request data and a clock value `now`) to an
`Except AppError` result, mirroring the source's control flow, its error
messages and status codes, and the PostgREST `.single()` semantics
(success only when the query matches exactly one row).

Timestamps are natural numbers; geographic coordinates are integers (no
claim involves coordinate arithmetic, only pass-through).  The bcrypt hash
and compare functions and the Google token verifier are external
collaborators; they enter as function parameters / pre-verified payloads.
The flattened user display fields that some report queries join in
(`userName`, `userAvatar`, `userCity`) are omitted: no property below
concerns them.
-/

deriving instance DecidableEq for Except

namespace FixMyTown

/-! ## Data model (`types/database.ts`) -/

inductive VoteType where
  | up
  | down
deriving DecidableEq, Repr

def VoteType.str : VoteType → String
  | .up => "up"
  | .down => "down"

/-- A row of the `users` table (`DatabaseUser`). -/
structure DBUser where
  id : String
  email : String
  name : String
  password_hash : Option String
  avatar : Option String
  location : Option String
  google_id : Option String
  is_admin : Bool
  created_at : Nat
  updated_at : Option Nat
deriving DecidableEq, Repr

/-- A row of the `reports` table (`DatabaseReport`). -/
structure DBReport where
  id : String
  title : String
  description : String
  category : String
  image : Option String
  latitude : Int
  longitude : Int
  address : String
  status : String
  approval_status : String
  approved_by : Option String
  approved_at : Option Nat
  rejected_by : Option String
  rejected_at : Option Nat
  rejection_reason : Option String
  upvotes : Nat
  downvotes : Nat
  user_vote : Option String
  user_id : String
  created_at : Nat
  updated_at : Option Nat
deriving DecidableEq, Repr

/-- A row of the `votes` table (`DatabaseVote`). -/
structure DBVote where
  report_id : String
  user_id : String
  vote_type : VoteType
  created_at : Nat
deriving DecidableEq, Repr

/-- The whole persistent state. -/
structure DBState where
  users : List DBUser
  reports : List DBReport
  votes : List DBVote
deriving DecidableEq, Repr

/-- Errors created by `createError(message, statusCode)` in
`middleware/errorHandler.ts`. -/
structure AppError where
  message : String
  statusCode : Nat
deriving DecidableEq, Repr

def createError (message : String) (statusCode : Nat) : AppError :=
  ⟨message, statusCode⟩

/-- PostgREST `.single()`: succeeds exactly when the query returned one row;
zero rows and multiple rows both produce error `PGRST116` (modelled as
`none`). -/
def singleRow {α : Type} : List α → Option α
  | [a] => some a
  | _ => none

/-- JavaScript truthiness of a possibly-absent string: `undefined`/`null`
and the empty string are falsy. -/
def strTruthy : Option String → Bool
  | some s => s != ""
  | none => false

/-! ## `services/userService.ts` -/

/-- The API-shaped user produced by `transformUser`. -/
structure User where
  id : String
  email : String
  name : String
  avatar : Option String
  city : Option String
  googleId : Option String
  isAdmin : Bool
deriving DecidableEq, Repr

def transformUser (u : DBUser) : User :=
  { id := u.id
    email := u.email
    name := u.name
    avatar := u.avatar
    city := u.location
    googleId := u.google_id
    isAdmin := u.is_admin }

/-- `getUserById`: `.eq('id', id).single()`; no row → 404. -/
def getUserById (s : DBState) (id : String) : Except AppError DBUser :=
  match singleRow (s.users.filter (fun u => u.id == id)) with
  | some u => .ok u
  | none => .error (createError "User not found" 404)

/-- `getUserByEmail` (and `getDatabaseUserByEmail`): `.eq('email', email)
.single()`; no row → `null`. -/
def getUserByEmail (s : DBState) (email : String) : Option DBUser :=
  singleRow (s.users.filter (fun u => u.email == email))

/-- `getUserByGoogleId`: `.eq('google_id', googleId).single()`. -/
def getUserByGoogleId (s : DBState) (googleId : String) : Option DBUser :=
  singleRow (s.users.filter (fun u => u.google_id == some googleId))

/-- Request body of `updateUser` (`UpdateUserRequest`, minus the `country`
field, which has no column in `DatabaseUser`). -/
structure UpdateUserRequest where
  name : Option String
  avatar : Option String
  city : Option String
deriving DecidableEq, Repr

def noUserUpdate : UpdateUserRequest := ⟨none, none, none⟩

/-- The column writes performed by `updateUser`: `name` only when truthy,
`avatar` whenever not `undefined`, `city` (stored in the `location` column)
whenever not `undefined`.  No other column — in particular never
`google_id`. -/
def applyUserUpdate (u : DBUser) (r : UpdateUserRequest) : DBUser :=
  { u with
    name := match r.name with
      | some n => if n == "" then u.name else n
      | none => u.name
    avatar := match r.avatar with
      | some a => some a
      | none => u.avatar
    location := match r.city with
      | some c => some c
      | none => u.location }

/-- `updateUser`: existence check, then `.update(updateData).eq('id', id)
.select().single()`. -/
def updateUser (s : DBState) (id : String) (r : UpdateUserRequest) :
    Except AppError (DBState × DBUser) :=
  match getUserById s id with
  | .error e => .error e
  | .ok _ =>
    let users := s.users.map (fun u => if u.id == id then applyUserUpdate u r else u)
    match singleRow (users.filter (fun u => u.id == id)) with
    | some u => .ok ({ s with users := users }, u)
    | none => .error (createError "Failed to update user" 500)

/-- `createUser`, Google-OAuth branch: inserts `email`, `name`, `avatar`,
`google_id`, `is_admin = false`.  The database's unique constraint on
`email` surfaces as a duplicate-key error mapped to 409. -/
def createGoogleUser (s : DBState) (email name : String) (avatar : Option String)
    (googleId : String) (newId : String) (now : Nat) :
    Except AppError (DBState × DBUser) :=
  if s.users.any (fun u => u.email == email) then
    .error (createError "User with this email already exists" 409)
  else
    let u : DBUser :=
      { id := newId, email := email, name := name, password_hash := none,
        avatar := avatar, location := none, google_id := some googleId,
        is_admin := false, created_at := now, updated_at := none }
    .ok ({ s with users := s.users ++ [u] }, u)

/-- `createUser`, password branch: inserts `email`, `name`,
`password_hash`, `is_admin = isAdmin || false`. -/
def createPasswordUser (s : DBState) (email name passwordHash : String)
    (isAdmin : Option Bool) (newId : String) (now : Nat) :
    Except AppError (DBState × DBUser) :=
  if s.users.any (fun u => u.email == email) then
    .error (createError "User with this email already exists" 409)
  else
    let u : DBUser :=
      { id := newId, email := email, name := name,
        password_hash := some passwordHash, avatar := none, location := none,
        google_id := none, is_admin := isAdmin.getD false,
        created_at := now, updated_at := none }
    .ok ({ s with users := s.users ++ [u] }, u)

/-! ## `services/authService.ts` (embedded in `server.ts`) -/

/-- The claims `jwt.sign` puts into a session token. -/
structure TokenPayload where
  userId : String
  email : String
  isAdmin : Bool
deriving DecidableEq, Repr

/-- A JWT as the middleware sees it: its payload, its expiry instant, and
whether its signature checks out against the server secret. -/
structure Token where
  payload : TokenPayload
  expiresAt : Nat
  sigValid : Bool
deriving DecidableEq, Repr

/-- `expiresIn: '7d'`, in seconds. -/
def jwtExpiresInSeconds : Nat := 7 * 24 * 60 * 60

/-- `generateToken`: signs `{userId, email, isAdmin}` with the server
secret, expiring `7d` from now. -/
def generateToken (u : DBUser) (now : Nat) : Token :=
  { payload := { userId := u.id, email := u.email, isAdmin := u.is_admin },
    expiresAt := now + jwtExpiresInSeconds,
    sigValid := true }

/-- `jsonwebtoken`'s `jwt.verify`: rejects a bad signature always, and an
expired token (`exp ≤ now`) unless `ignoreExpiration` is set. -/
def jwtVerify (t : Token) (now : Nat) (ignoreExpiration : Bool) :
    Except Unit TokenPayload :=
  if !t.sigValid then .error ()
  else if !ignoreExpiration && t.expiresAt ≤ now then .error ()
  else .ok t.payload

/-- `verifyToken`: plain `jwt.verify`; any failure becomes
`Unauthorized("Invalid or expired token")`. -/
def verifyToken (t : Token) (now : Nat) : Except AppError TokenPayload :=
  match jwtVerify t now false with
  | .ok p => .ok p
  | .error _ => .error (createError "Invalid or expired token" 401)

/-- `refreshToken`: `jwt.verify` with `ignoreExpiration: true`, re-read the
user, issue a fresh token; every failure (bad signature or missing user)
is caught and becomes `Unauthorized("Invalid refresh token")`. -/
def refreshToken (s : DBState) (t : Token) (now : Nat) :
    Except AppError Token :=
  match jwtVerify t now true with
  | .error _ => .error (createError "Invalid refresh token" 401)
  | .ok p =>
    match getUserById s p.userId with
    | .error _ => .error (createError "Invalid refresh token" 401)
    | .ok u => .ok (generateToken u now)

/-- The profile `verifyGoogleToken` extracts from a Google id-token that
passed the provider library's signature/audience check and carries the
required `email`, `name` and `sub` fields. -/
structure GoogleUser where
  email : String
  name : String
  picture : Option String
  googleId : String
deriving DecidableEq, Repr

/-- `authenticateWithGoogle`, after token verification: look up by
`google_id`; on a hit refresh the avatar when it changed; otherwise fall
back to the `email` lookup, updating only the avatar on a hit; otherwise
create a new user with the Google identity (`isNewUser = true`).  Finally
issue a token.  `newId` stands for the row id the database generates on
insert. -/
def authenticateWithGoogle (s : DBState) (g : GoogleUser) (newId : String)
    (now : Nat) : Except AppError (DBState × DBUser × Token × Bool) :=
  match getUserByGoogleId s g.googleId with
  | some user =>
    if strTruthy g.picture && user.avatar != g.picture then
      match updateUser s user.id { noUserUpdate with avatar := g.picture } with
      | .error e => .error e
      | .ok (s', user') => .ok (s', user', generateToken user' now, false)
    else
      .ok (s, user, generateToken user now, false)
  | none =>
    match getUserByEmail s g.email with
    | some user =>
      let avatarArg : Option String :=
        if strTruthy g.picture then g.picture
        else if strTruthy user.avatar then user.avatar
        else none
      match updateUser s user.id { noUserUpdate with avatar := avatarArg } with
      | .error e => .error e
      | .ok (s', user') => .ok (s', user', generateToken user' now, false)
    | none =>
      match createGoogleUser s g.email g.name g.picture g.googleId newId now with
      | .error e => .error e
      | .ok (s', user') => .ok (s', user', generateToken user' now, true)

/-- Body of `POST /auth/register` (`RegisterSchema`). -/
structure RegisterRequest where
  email : String
  name : String
  password : String
deriving DecidableEq, Repr

/-- `registerUser`: duplicate-email check, bcrypt hash (the external
`hash` collaborator), password-branch `createUser`, token issue. -/
def registerUser (hash : String → String) (s : DBState) (r : RegisterRequest)
    (isAdmin : Option Bool) (newId : String) (now : Nat) :
    Except AppError (DBState × DBUser × Token) :=
  match getUserByEmail s r.email with
  | some _ => .error (createError "User with this email already exists" 409)
  | none =>
    match createPasswordUser s r.email r.name (hash r.password) isAdmin newId now with
    | .error e => .error e
    | .ok (s', u) => .ok (s', u, generateToken u now)

/-- Body of `POST /auth/login` (`LoginSchema`). -/
structure LoginRequest where
  email : String
  password : String
deriving DecidableEq, Repr

/-- `loginUser`: email lookup (absent → generic 401), `password_hash`
truthiness check (falsy → the Google-directing 401), bcrypt compare (the
external `compare` collaborator; mismatch → the same generic 401), then
token issue. -/
def loginUser (compare : String → String → Bool) (s : DBState)
    (c : LoginRequest) (now : Nat) : Except AppError (DBUser × Token) :=
  match getUserByEmail s c.email with
  | none => .error (createError "Invalid email or password" 401)
  | some user =>
    match getUserByEmail s c.email with
    | none =>
      .error (createError "This account uses Google sign-in. Please use Google to log in." 401)
    | some dbUser =>
      match dbUser.password_hash with
      | none =>
        .error (createError "This account uses Google sign-in. Please use Google to log in." 401)
      | some h =>
        if h == "" then
          .error (createError "This account uses Google sign-in. Please use Google to log in." 401)
        else if compare c.password h then
          .ok (user, generateToken user now)
        else
          .error (createError "Invalid email or password" 401)

/-! ## `routes/auth.ts`: the `POST /auth/create-admin` route -/

/-- The middleware functions that can guard a route. -/
inductive Middleware where
  | authLimiter
  | validateBody
  | validateParams
  | validateQuery
  | authenticateToken
  | requireAdmin
  | optionalAuth
  | createReportLimiter
  | voteLimiter
deriving DecidableEq, Repr

/-- The chain in front of `POST /auth/create-admin`: the router-level
`authLimiter` plus `validateBody(RegisterSchema)` — nothing that checks a
bearer token. -/
def createAdminMiddlewares : List Middleware :=
  [.authLimiter, .validateBody]

/-- The `create-admin` handler body:
`registerUser({...req.body, isAdmin: true})`. -/
def createAdminHandler (hash : String → String) (s : DBState)
    (r : RegisterRequest) (newId : String) (now : Nat) :
    Except AppError (DBState × DBUser × Token) :=
  registerUser hash s r (some true) newId now

/-! ## `services/reportService.ts` -/

/-- The API-shaped report produced by `transformReport` (the flattened
`users` join fields are omitted, see the header). -/
structure Report where
  id : String
  title : String
  description : String
  category : String
  image : Option String
  latitude : Int
  longitude : Int
  address : String
  status : String
  approvalStatus : String
  approvedBy : Option String
  approvedAt : Option Nat
  rejectedBy : Option String
  rejectedAt : Option Nat
  rejectionReason : Option String
  upvotes : Nat
  downvotes : Nat
  userVote : Option String
  userId : String
  createdAt : Nat
  updatedAt : Option Nat
deriving DecidableEq, Repr

/-- The image sanitisation inside `transformReport`: keep (trimmed) only a
non-empty string that is not the literal `"null"`/`"undefined"` and looks
like an http/https/data-image URL. -/
def sanitizeImage : Option String → Option String
  | none => none
  | some img =>
    if img != "" && img.trim != "" && img != "null" && img != "undefined" &&
        (img.startsWith "http://" || img.startsWith "https://" ||
          img.startsWith "data:image/") then
      some img.trim
    else
      none

/-- `transformReport`: copies the row into the API shape; `userVote` is the
row's raw `user_vote` column. -/
def transformReport (r : DBReport) : Report :=
  { id := r.id
    title := r.title
    description := r.description
    category := r.category
    image := sanitizeImage r.image
    latitude := r.latitude
    longitude := r.longitude
    address := r.address
    status := r.status
    approvalStatus := r.approval_status
    approvedBy := r.approved_by
    approvedAt := r.approved_at
    rejectedBy := r.rejected_by
    rejectedAt := r.rejected_at
    rejectionReason := r.rejection_reason
    upvotes := r.upvotes
    downvotes := r.downvotes
    userVote := r.user_vote
    userId := r.user_id
    createdAt := r.created_at
    updatedAt := r.updated_at }

/-- `getUserVoteForReport`: the caller's vote row for the report via
`.single()`, `null` without a caller or without exactly one row. -/
def getUserVoteForReport (s : DBState) (reportId : String)
    (userId : Option String) : Option VoteType :=
  match userId with
  | none => none
  | some uid =>
    match singleRow (s.votes.filter
        (fun v => v.report_id == reportId && v.user_id == uid)) with
    | some v => some v.vote_type
    | none => none

/-- `enrichReportWithUserVote`. -/
def enrichReportWithUserVote (s : DBState) (r : Report)
    (userId : Option String) : Report :=
  { r with userVote := (getUserVoteForReport s r.id userId).map VoteType.str }

/-- `enrichReportsWithUserVotes`: batch variant; without a caller the
reports pass through, otherwise each `userVote` is looked up in the
caller's votes. -/
def enrichReportsWithUserVotes (s : DBState) (rs : List Report)
    (userId : Option String) : List Report :=
  match userId with
  | none => rs
  | some uid =>
    rs.map (fun r =>
      let voteRow := s.votes.find? (fun v => v.user_id == uid && v.report_id == r.id)
      { r with userVote := voteRow.map (fun v => v.vote_type.str) })

/-- The row query of `getReportById`: `.eq('id', id)`, gated by
`approval_status = 'approved'` only when there is no authenticated
caller. -/
def reportQuery (s : DBState) (id : String) (userId : Option String) :
    List DBReport :=
  let q := s.reports.filter (fun r => r.id == id)
  if userId.isNone then q.filter (fun r => r.approval_status == "approved") else q

/-- `getReportById`: `.single()` on the query (no or several rows → 404),
then transform and enrich with the caller's vote. -/
def getReportById (s : DBState) (id : String) (userId : Option String) :
    Except AppError Report :=
  match singleRow (reportQuery s id userId) with
  | some row => .ok (enrichReportWithUserVote s (transformReport row) userId)
  | none => .error (createError "Report not found" 404)

/-- Query-string filters of `GET /reports` (`ReportFiltersSchema`). -/
structure ReportFilters where
  status : Option String
  category : Option String
  userId : Option String
  search : Option String
deriving DecidableEq, Repr

def noFilters : ReportFilters := ⟨none, none, none, none⟩

structure Pagination where
  page : Nat
  limit : Nat
deriving DecidableEq, Repr

/-- `{page: 1, limit: 20}`, the schema defaults. -/
def defaultPagination : Pagination := ⟨1, 20⟩

/-- Booleanised list-of-chars comparison used to model `ilike`: does the
needle occur at the head of the haystack? -/
def leadsWith : List Char → List Char → Bool
  | [], _ => true
  | _ :: _, [] => false
  | a :: as, b :: bs => a == b && leadsWith as bs

/-- Does the needle occur anywhere in the haystack? -/
def charsContain (needle : List Char) : List Char → Bool
  | [] => needle.isEmpty
  | b :: bs => leadsWith needle (b :: bs) || charsContain needle bs

/-- `title.ilike.%s%`: case-insensitive substring match. -/
def containsCI (hay needle : String) : Bool :=
  charsContain needle.toLower.data hay.toLower.data

/-- The filter chain of `getAllReports` (each filter applies only when the
query value is truthy, as in the source's `if (filters.x)` guards). -/
def applyFilters (reports : List DBReport) (f : ReportFilters) :
    List DBReport :=
  let q := reports
  let q := match f.status with
    | some st => if st != "" then q.filter (fun r => r.status == st) else q
    | none => q
  let q := match f.category with
    | some c => if c != "" then q.filter (fun r => r.category == c) else q
    | none => q
  let q := match f.userId with
    | some uid => if uid != "" then q.filter (fun r => r.user_id == uid) else q
    | none => q
  let q := match f.search with
    | some sv =>
      if sv != "" then
        q.filter (fun r =>
          containsCI r.title sv || containsCI r.description sv ||
            containsCI r.address sv)
      else q
    | none => q
  q

/-- `order('created_at', { ascending: false })`: insertion sort by
descending creation time. -/
def insertByCreatedDesc (r : DBReport) : List DBReport → List DBReport
  | [] => [r]
  | x :: xs =>
    if x.created_at ≤ r.created_at then r :: x :: xs
    else x :: insertByCreatedDesc r xs

def orderByCreatedDesc : List DBReport → List DBReport
  | [] => []
  | x :: xs => insertByCreatedDesc x (orderByCreatedDesc xs)

/-- `getAllReports`: filters, the approval gate applied **only when there
is no authenticated caller** (`if (!userId)`), newest-first order, the
`range(offset, offset+limit-1)` window, transform, vote enrichment, and
the exact pre-pagination count. -/
def getAllReports (s : DBState) (f : ReportFilters) (p : Pagination)
    (userId : Option String) : List Report × Nat :=
  let q := applyFilters s.reports f
  let q := if userId.isNone
    then q.filter (fun r => r.approval_status == "approved")
    else q
  let offset := (p.page - 1) * p.limit
  let window := ((orderByCreatedDesc q).drop offset).take p.limit
  let reports := window.map transformReport
  (enrichReportsWithUserVotes s reports userId, q.length)

/-- Body of `PUT /reports/:id` (`UpdateReportSchema`). -/
structure UpdateReportRequest where
  title : Option String
  description : Option String
  category : Option String
  location : Option (Int × Int)
  address : Option String
  image : Option String
  status : Option String
deriving DecidableEq, Repr

def noReportUpdate : UpdateReportRequest :=
  ⟨none, none, none, none, none, none, none⟩

/-- The column writes `updateReport` assembles: each text field only when
truthy, `image` whenever present, both coordinates when `location` is
present, and `status` **only when truthy and the caller is an admin**;
`updated_at` always. -/
def applyReportUpdate (r : DBReport) (u : UpdateReportRequest)
    (isAdmin : Bool) (now : Nat) : DBReport :=
  { r with
    title := match u.title with
      | some t => if t == "" then r.title else t
      | none => r.title
    description := match u.description with
      | some d => if d == "" then r.description else d
      | none => r.description
    category := match u.category with
      | some c => if c == "" then r.category else c
      | none => r.category
    image := match u.image with
      | some i => some i
      | none => r.image
    latitude := match u.location with
      | some (la, _) => la
      | none => r.latitude
    longitude := match u.location with
      | some (_, lo) => lo
      | none => r.longitude
    address := match u.address with
      | some a => if a == "" then r.address else a
      | none => r.address
    status := match u.status with
      | some st => if st != "" && isAdmin then st else r.status
      | none => r.status
    updated_at := some now }

/-- `updateReport`: fetch (as the caller), ownership-or-admin check, then
`.update(updateData).eq('id', id).select().single()`. -/
def updateReport (s : DBState) (id : String) (u : UpdateReportRequest)
    (userId : String) (isAdmin : Bool) (now : Nat) :
    Except AppError (DBState × Report) :=
  match getReportById s id (some userId) with
  | .error e => .error e
  | .ok existing =>
    if !isAdmin && existing.userId != userId then
      .error (createError "You can only update your own reports" 403)
    else
      let reports := s.reports.map
        (fun r => if r.id == id then applyReportUpdate r u isAdmin now else r)
      match singleRow (reports.filter (fun r => r.id == id)) with
      | some row => .ok ({ s with reports := reports }, transformReport row)
      | none => .error (createError "Failed to update report" 500)

/-- `approveReport`: delegates to `updateReport` with the body
`{status: 'approved'}` (cast `as any`) and `isAdmin = true`. -/
def approveReport (s : DBState) (reportId adminId : String) (now : Nat) :
    Except AppError (DBState × Report) :=
  updateReport s reportId { noReportUpdate with status := some "approved" }
    adminId true now

/-- `rejectReport`: delegates to `updateReport` with the body
`{status: 'rejected'}` (cast `as any`) and `isAdmin = true`; the `reason`
argument is accepted and never used, exactly as in the source. -/
def rejectReport (s : DBState) (reportId adminId : String)
    (reason : Option String) (now : Nat) :
    Except AppError (DBState × Report) :=
  updateReport s reportId { noReportUpdate with status := some "rejected" }
    adminId true now

/-- The three-way vote decision of `voteOnReport`: delete on a repeated
same-type vote, flip in place on an opposite vote, insert otherwise.
`existingVote` comes from `.single()` on the `(report, user)` pair. -/
def voteLedgerStep (votes : List DBVote) (reportId userId : String)
    (voteType : VoteType) (now : Nat) : List DBVote :=
  match singleRow (votes.filter
      (fun v => v.report_id == reportId && v.user_id == userId)) with
  | some existingVote =>
    if existingVote.vote_type == voteType then
      votes.filter (fun w => !(w.report_id == reportId && w.user_id == userId))
    else
      votes.map (fun w =>
        if w.report_id == reportId && w.user_id == userId then
          { w with vote_type := voteType }
        else w)
  | none => votes ++ [⟨reportId, userId, voteType, now⟩]

/-- The recount of `voteOnReport`: re-read every vote row of the report
and count one type's occurrences. -/
def countVotesOfType (votes : List DBVote) (reportId : String)
    (t : VoteType) : Nat :=
  ((votes.filter (fun v => v.report_id == reportId)).filter
    (fun v => v.vote_type == t)).length

/-- `voteOnReport`: existence check (as the authenticated caller), the
ledger step, the full recount, and the counter write-back onto the report
row; the returned representation is `transformReport` of the updated row
(without vote enrichment). -/
def voteOnReport (s : DBState) (reportId : String) (voteType : VoteType)
    (userId : String) (now : Nat) : Except AppError (DBState × Report) :=
  match getReportById s reportId (some userId) with
  | .error e => .error e
  | .ok _ =>
    let votes := voteLedgerStep s.votes reportId userId voteType now
    let upvotes := countVotesOfType votes reportId .up
    let downvotes := countVotesOfType votes reportId .down
    let reports := s.reports.map (fun r =>
      if r.id == reportId then
        { r with upvotes := upvotes, downvotes := downvotes,
                 updated_at := some now }
      else r)
    match singleRow (reports.filter (fun r => r.id == reportId)) with
    | some row => .ok ({ s with votes := votes, reports := reports },
        transformReport row)
    | none => .error (createError "Failed to vote on report" 500)

/-! ## Concrete states used to evaluate the operations -/

def ownerU : DBUser :=
  { id := "owner1", email := "owner@example.com", name := "Owner",
    password_hash := some "hash-o", avatar := none, location := none,
    google_id := none, is_admin := false, created_at := 1, updated_at := none }

def voterU : DBUser :=
  { id := "u1", email := "voter@example.com", name := "Voter",
    password_hash := some "h:alpine", avatar := none, location := none,
    google_id := none, is_admin := false, created_at := 2, updated_at := none }

def adminU : DBUser :=
  { id := "admin1", email := "admin@example.com", name := "Admin",
    password_hash := some "hash-a", avatar := none, location := none,
    google_id := none, is_admin := true, created_at := 3, updated_at := none }

def viewerU : DBUser :=
  { id := "viewer1", email := "viewer@example.com", name := "Viewer",
    password_hash := some "hash-w", avatar := none, location := none,
    google_id := none, is_admin := false, created_at := 4, updated_at := none }

def aliceU : DBUser :=
  { id := "alice1", email := "alice@example.com", name := "Alice",
    password_hash := some "hash-al", avatar := none, location := none,
    google_id := none, is_admin := false, created_at := 5, updated_at := none }

def googleOnlyU : DBUser :=
  { id := "g1", email := "gonly@example.com", name := "Gonly",
    password_hash := none, avatar := none, location := none,
    google_id := some "goog-9", is_admin := false, created_at := 6,
    updated_at := none }

/-- An approved report owned by `owner1` with no votes yet. -/
def reportR1 : DBReport :=
  { id := "r1", title := "Pothole", description := "Deep pothole",
    category := "roads", image := none, latitude := 42, longitude := 23,
    address := "Main St 1", status := "submitted",
    approval_status := "approved", approved_by := none, approved_at := none,
    rejected_by := none, rejected_at := none, rejection_reason := none,
    upvotes := 0, downvotes := 0, user_vote := none, user_id := "owner1",
    created_at := 100, updated_at := none }

/-- A freshly submitted, still pending report owned by `owner1`. -/
def pendingR2 : DBReport :=
  { id := "r2", title := "Broken lamp", description := "Street lamp is out",
    category := "lighting", image := none, latitude := 42, longitude := 23,
    address := "Main St 2", status := "submitted",
    approval_status := "pending", approved_by := none, approved_at := none,
    rejected_by := none, rejected_at := none, rejection_reason := none,
    upvotes := 0, downvotes := 0, user_vote := none, user_id := "owner1",
    created_at := 50, updated_at := none }

def voteState : DBState :=
  { users := [ownerU, voterU], reports := [reportR1], votes := [] }

def adminState : DBState :=
  { users := [ownerU, adminU], reports := [pendingR2], votes := [] }

def visState : DBState :=
  { users := [ownerU, viewerU], reports := [pendingR2], votes := [] }

def googleState : DBState :=
  { users := [aliceU], reports := [], votes := [] }

def authState : DBState :=
  { users := [voterU, googleOnlyU], reports := [], votes := [] }

def emptyState : DBState := { users := [], reports := [], votes := [] }

/-- A verified Google identity whose `googleId` matches nobody but whose
email matches `aliceU`. -/
def gAlice : GoogleUser :=
  { email := "alice@example.com", name := "Alice G",
    picture := some "https://pic.example.com/1.png", googleId := "goog-123" }

/-- A correctly signed token for `voterU` that expired at instant 500. -/
def expiredTok : Token :=
  { payload := { userId := "u1", email := "voter@example.com", isAdmin := false },
    expiresAt := 500, sigValid := true }

/-- A token whose signature does not verify. -/
def badSigTok : Token :=
  { payload := { userId := "u1", email := "voter@example.com", isAdmin := false },
    expiresAt := 2000000, sigValid := false }

/-- The result of `voterU` up-voting `r1` once on the clean state. -/
def voteOnceRes : DBState × Report :=
  (voteOnReport voteState "r1" VoteType.up "u1" 5).toOption.getD
    (voteState, transformReport reportR1)

/-- A full update body the non-admin owner sends for `r1`: every editable
field plus a `status` value. -/
def ownerUpdateBody : UpdateReportRequest :=
  { title := some "Bigger pothole", description := some "Worse now",
    category := some "waste", location := some (43, 24),
    address := some "Main St 9", image := some "https://img.example.com/a.png",
    status := some "resolved" }

/-- The result of registering an admin through `POST /auth/create-admin`
on an empty directory. -/
def adminRegReq : RegisterRequest :=
  { email := "root@example.com", name := "Root", password := "hunter22" }

def demoHash (p : String) : String := "h:" ++ p

def demoCompare (password hash : String) : Bool := hash == "h:" ++ password

/-! ## Helper lemmas -/

theorem singleRow_eq_some {α : Type} {l : List α} {a : α} :
    singleRow l = some a ↔ l = [a] := by
  cases l with
  | nil => simp [singleRow]
  | cons x t =>
    cases t with
    | nil => simp [singleRow]
    | cons y t2 => simp [singleRow]

theorem filter_map_comm {α : Type} (p : α → Bool) (f : α → α)
    (hf : ∀ a, p (f a) = p a) (l : List α) :
    (l.map (fun a => if p a then f a else a)).filter p = (l.filter p).map f := by
  induction l with
  | nil => rfl
  | cons x xs ih =>
    cases hx : p x with
    | true => simp [List.filter_cons, hx, hf, ih]
    | false => simp [List.filter_cons, hx, ih]

theorem filter_not_of_filter_eq_nil {α : Type} {p : α → Bool} {l : List α}
    (h : l.filter p = []) : l.filter (fun a => !(p a)) = l := by
  induction l with
  | nil => rfl
  | cons x xs ih =>
    cases hx : p x with
    | true => simp [List.filter_cons, hx] at h
    | false =>
      rw [List.filter_cons, hx] at h
      simp only [List.filter_cons, hx, Bool.not_false, if_pos]
      simp [ih h]

theorem any_eq_false_of_filter_eq_nil {α : Type} {p : α → Bool} {l : List α}
    (h : l.filter p = []) : l.any p = false := by
  induction l with
  | nil => rfl
  | cons x xs ih =>
    cases hx : p x with
    | true => simp [List.filter_cons, hx] at h
    | false =>
      rw [List.filter_cons, hx] at h
      simp [List.any_cons, hx, ih h]

/-- Closed form of a successful `voteOnReport` when the report row is the
unique match for the id. -/
theorem voteOnReport_eq_of_filter (s : DBState) (rid : String) (t : VoteType)
    (uid : String) (now : Nat) (r : DBReport)
    (hr : s.reports.filter (fun x => x.id == rid) = [r]) :
    voteOnReport s rid t uid now =
      .ok ({ s with
              votes := voteLedgerStep s.votes rid uid t now,
              reports := s.reports.map (fun x =>
                if x.id == rid then
                  { x with
                    upvotes := countVotesOfType
                      (voteLedgerStep s.votes rid uid t now) rid VoteType.up,
                    downvotes := countVotesOfType
                      (voteLedgerStep s.votes rid uid t now) rid VoteType.down,
                    updated_at := some now }
                else x) },
            transformReport
              { r with
                upvotes := countVotesOfType
                  (voteLedgerStep s.votes rid uid t now) rid VoteType.up,
                downvotes := countVotesOfType
                  (voteLedgerStep s.votes rid uid t now) rid VoteType.down,
                updated_at := some now }) := by
  have hq : singleRow (reportQuery s rid (some uid)) = some r := by
    simp [reportQuery, hr, singleRow]
  have hget : getReportById s rid (some uid) =
      .ok (enrichReportWithUserVote s (transformReport r) (some uid)) := by
    simp only [getReportById, hq]
  have hmap : List.filter (fun x => x.id == rid)
      (List.map (fun x =>
        if x.id == rid then
          ({ x with
              upvotes := countVotesOfType
                (voteLedgerStep s.votes rid uid t now) rid VoteType.up,
              downvotes := countVotesOfType
                (voteLedgerStep s.votes rid uid t now) rid VoteType.down,
              updated_at := some now } : DBReport)
        else x) s.reports) =
      [{ r with
          upvotes := countVotesOfType
            (voteLedgerStep s.votes rid uid t now) rid VoteType.up,
          downvotes := countVotesOfType
            (voteLedgerStep s.votes rid uid t now) rid VoteType.down,
          updated_at := some now }] := by
    rw [filter_map_comm (fun x : DBReport => x.id == rid)
      (fun x : DBReport =>
        { x with
          upvotes := countVotesOfType
            (voteLedgerStep s.votes rid uid t now) rid VoteType.up,
          downvotes := countVotesOfType
            (voteLedgerStep s.votes rid uid t now) rid VoteType.down,
          updated_at := some now })
      (fun a => rfl) s.reports, hr]
    rfl
  simp only [voteOnReport, hget]
  rw [hmap]
  rfl

/-- Closed form of a successful `updateReport` when the report row is the
unique match for the id and the permission guard passes. -/
theorem updateReport_eq_of_filter (s : DBState) (rid : String)
    (u : UpdateReportRequest) (uid : String) (isAdmin : Bool) (now : Nat)
    (r : DBReport)
    (hr : s.reports.filter (fun x => x.id == rid) = [r])
    (hperm : (!isAdmin && (r.user_id != uid)) = false) :
    updateReport s rid u uid isAdmin now =
      .ok ({ s with reports := s.reports.map (fun x =>
              if x.id == rid then applyReportUpdate x u isAdmin now else x) },
            transformReport (applyReportUpdate r u isAdmin now)) := by
  have hq : singleRow (reportQuery s rid (some uid)) = some r := by
    simp [reportQuery, hr, singleRow]
  have hget : getReportById s rid (some uid) =
      .ok (enrichReportWithUserVote s (transformReport r) (some uid)) := by
    simp only [getReportById, hq]
  have hmap : List.filter (fun x => x.id == rid)
      (List.map (fun x =>
        if x.id == rid then applyReportUpdate x u isAdmin now else x) s.reports) =
      [applyReportUpdate r u isAdmin now] := by
    rw [filter_map_comm (fun x : DBReport => x.id == rid)
      (fun x : DBReport => applyReportUpdate x u isAdmin now)
      (fun a => rfl) s.reports, hr]
    rfl
  simp only [updateReport, hget]
  rw [show (enrichReportWithUserVote s (transformReport r) (some uid)).userId
      = r.user_id from rfl, hperm, hmap]
  rfl

/-! ## Claim theorems -/

/-- C1: the claim says that a verified Google identity whose `providerId`
matches no user but whose email does match links the `providerId`
(`google_id`) onto that user so that a later provider-id lookup finds the
same record.  Evaluating the code on such an input shows the email-match
branch updates only the avatar: the merged record keeps `google_id = none`
and the provider-id lookup still finds nobody after the operation
(`updateUser` has no `google_id` write path at all). -/
theorem authenticateWithGoogle_email_match_does_not_link_providerId :
    getUserByGoogleId googleState "goog-123" = none ∧
    getUserByEmail googleState "alice@example.com" = some aliceU ∧
    (authenticateWithGoogle googleState gAlice "new-id" 10).toOption.map
        (fun res => (getUserByGoogleId res.1 "goog-123", res.2.1.google_id)) =
      some (none, none) := by
  decide

/-- C4: the claim says `approveReport` sets `approval_status = 'approved'`
(making the report publicly listable) and records actor id and timestamp,
and `rejectReport` records actor, timestamp and reason.  Evaluating the
code on a pending report and an admin shows both write the *work-status*
`status` field instead: `approval_status` stays `'pending'`, no actor,
timestamp or reason is recorded, and the approved report is still
invisible to an unauthenticated reader. -/
theorem approveReport_sets_wrong_status_axis :
    pendingR2.approval_status = "pending" ∧
    adminU.is_admin = true ∧
    (approveReport adminState "r2" "admin1" 60).toOption.map
        (fun res => (res.2.status, res.2.approvalStatus, res.2.approvedBy,
          res.2.approvedAt)) = some ("approved", "pending", none, none) ∧
    (approveReport adminState "r2" "admin1" 60).toOption.map
        (fun res => getReportById res.1 "r2" none) =
      some (.error (createError "Report not found" 404)) ∧
    (rejectReport adminState "r2" "admin1" (some "spam") 60).toOption.map
        (fun res => (res.2.status, res.2.approvalStatus, res.2.rejectionReason,
          res.2.rejectedBy, res.2.rejectedAt)) =
      some ("rejected", "pending", none, none, none) := by
  decide

/-- C5: the claim says authenticated non-owning non-admin readers never
see pending or rejected reports of other users.  Evaluating the code shows
the `approval_status = 'approved'` gate applies only when there is *no*
authenticated caller (`if (!userId)`): the non-admin, non-owning
`viewer1` receives another user's pending report from both `getAllReports`
and `getReportById`, while the unauthenticated leg of the claim does
hold. -/
theorem getAllReports_pending_visible_to_authenticated_nonowner :
    viewerU.is_admin = false ∧
    pendingR2.user_id ≠ viewerU.id ∧
    ((getAllReports visState noFilters defaultPagination (some "viewer1")).1.map
        (fun r => (r.id, r.approvalStatus))) = [("r2", "pending")] ∧
    (getAllReports visState noFilters defaultPagination none).1 = [] ∧
    ((getReportById visState "r2" (some "viewer1")).toOption.map
        (fun r => r.approvalStatus)) = some "pending" ∧
    getReportById visState "r2" none =
      .error (createError "Report not found" 404) := by
  decide

/-- C8 (counterexample): the claim says the report returned by a
successful `voteOnReport` carries the caller's current vote state (`'up'`
or `'down'` when a vote row remains).  After a first up-vote a vote row
`(r1, u1, up)` remains, yet the returned `userVote` is `none`, not
`some "up"`: `voteOnReport` returns `transformReport` of the raw row
(whose `user_vote` column this service never writes) without calling the
vote enrichment. -/
theorem voteOnReport_userVote_counterexample :
    (voteOnReport voteState "r1" VoteType.up "u1" 5).toOption.map
        (fun res => (res.1.votes.filter
            (fun v => v.report_id == "r1" && v.user_id == "u1"),
          res.2.userVote)) =
      some ([⟨"r1", "u1", VoteType.up, 5⟩], none) ∧
    (none : Option String) ≠ some "up" := by
  decide

/-- C8 (amended): the report returned by a successful `voteOnReport` is
not enriched with the caller's vote; its `userVote` field is the raw
`user_vote` column of the stored report row, unchanged by the vote
operation. -/
theorem voteOnReport_returns_raw_user_vote_column (s : DBState)
    (rid : String) (t : VoteType) (uid : String) (now : Nat) (s' : DBState)
    (rep : Report) (r : DBReport)
    (h : voteOnReport s rid t uid now = .ok (s', rep))
    (hr : s.reports.filter (fun x => x.id == rid) = [r]) :
    rep.userVote = r.user_vote := by
  rw [voteOnReport_eq_of_filter s rid t uid now r hr] at h
  simp only [Except.ok.injEq, Prod.mk.injEq] at h
  exact h.2 ▸ rfl

/-- C8 (witness for the amended theorem): on the concrete first up-vote,
the returned `userVote` equals `reportR1`'s stored `user_vote` column. -/
theorem voteOnReport_returns_raw_user_vote_column_witness :
    voteOnceRes.2.userVote = reportR1.user_vote :=
  voteOnReport_returns_raw_user_vote_column voteState "r1" VoteType.up "u1" 5
    voteOnceRes.1 voteOnceRes.2 reportR1 (by decide) (by decide)

/-- C2: after every successful `voteOnReport`, both the returned counts
and the counts written onto every stored report row with that id equal the
number of `'up'` / `'down'` vote rows of the report in the resulting
state — they are recomputed from the ledger, never incremented. -/
theorem voteOnReport_counts_equal_vote_rows (s : DBState) (rid : String)
    (t : VoteType) (uid : String) (now : Nat) (s' : DBState) (rep : Report)
    (h : voteOnReport s rid t uid now = .ok (s', rep)) :
    rep.upvotes = countVotesOfType s'.votes rid VoteType.up ∧
    rep.downvotes = countVotesOfType s'.votes rid VoteType.down ∧
    ∀ r' ∈ s'.reports, r'.id = rid →
      r'.upvotes = countVotesOfType s'.votes rid VoteType.up ∧
      r'.downvotes = countVotesOfType s'.votes rid VoteType.down := by
  rcases hq : singleRow (reportQuery s rid (some uid)) with _ | r0
  · have hget : getReportById s rid (some uid) =
        .error (createError "Report not found" 404) := by
      simp only [getReportById, hq]
    simp only [voteOnReport, hget] at h
    exact Except.noConfusion h
  · have hr : s.reports.filter (fun x => x.id == rid) = [r0] := by
      have h2 := singleRow_eq_some.mp hq
      simpa [reportQuery] using h2
    rw [voteOnReport_eq_of_filter s rid t uid now r0 hr] at h
    simp only [Except.ok.injEq, Prod.mk.injEq] at h
    obtain ⟨hs, hrep⟩ := h
    subst hs
    subst hrep
    refine ⟨rfl, rfl, ?_⟩
    intro r' hmem hid
    rcases List.mem_map.mp hmem with ⟨orig, ho, rfl⟩
    by_cases hc : orig.id = rid
    · have hb : (orig.id == rid) = true := by simp [hc]
      exact ⟨by simp [hb], by simp [hb]⟩
    · simp [hc] at hid

/-- C2 (witness): the counts returned for the concrete first up-vote match
a recount of the resulting vote rows. -/
theorem voteOnReport_counts_equal_vote_rows_witness :
    voteOnceRes.2.upvotes = countVotesOfType voteOnceRes.1.votes "r1" VoteType.up ∧
    voteOnceRes.2.downvotes = countVotesOfType voteOnceRes.1.votes "r1" VoteType.down := by
  have h := voteOnReport_counts_equal_vote_rows voteState "r1" VoteType.up "u1" 5
    voteOnceRes.1 voteOnceRes.2 (by decide)
  exact ⟨h.1, h.2.1⟩

/-- C3: on a report whose stored counts agree with its vote rows and a
user with no vote on it, casting the same vote type twice first inserts
the vote row and then deletes it: the ledger returns to its initial rows,
and both the returned and the stored counts return to their pre-vote
values. -/
theorem voteOnReport_same_type_twice_net_zero (s : DBState) (rid : String)
    (t : VoteType) (uid : String) (n1 n2 : Nat) (r : DBReport)
    (hr : s.reports.filter (fun x => x.id == rid) = [r])
    (hnv : s.votes.filter (fun v => v.report_id == rid && v.user_id == uid) = [])
    (hup : r.upvotes = countVotesOfType s.votes rid VoteType.up)
    (hdn : r.downvotes = countVotesOfType s.votes rid VoteType.down) :
    (voteOnReport s rid t uid n1).toOption.map (fun x => x.1.votes) =
      some (s.votes ++ [(⟨rid, uid, t, n1⟩ : DBVote)]) ∧
    ((voteOnReport s rid t uid n1).toOption.bind
        (fun x => (voteOnReport x.1 rid t uid n2).toOption)).map
        (fun y => (y.1.votes, y.2.upvotes, y.2.downvotes,
          (y.1.reports.filter (fun x => x.id == rid)).map
            (fun x => (x.upvotes, x.downvotes)))) =
      some (s.votes, r.upvotes, r.downvotes, [(r.upvotes, r.downvotes)]) := by
  have hv1 : voteLedgerStep s.votes rid uid t n1 =
      s.votes ++ [(⟨rid, uid, t, n1⟩ : DBVote)] := by
    simp only [voteLedgerStep]
    rw [hnv]
    rfl
  have h1 := voteOnReport_eq_of_filter s rid t uid n1 r hr
  rw [hv1] at h1
  have hpm : ((⟨rid, uid, t, n1⟩ : DBVote).report_id == rid &&
      (⟨rid, uid, t, n1⟩ : DBVote).user_id == uid) = true := by simp
  have hsingle : singleRow ((s.votes ++ [(⟨rid, uid, t, n1⟩ : DBVote)]).filter
      (fun v => v.report_id == rid && v.user_id == uid)) =
      some (⟨rid, uid, t, n1⟩ : DBVote) := by
    rw [List.filter_append, hnv]
    simp [singleRow, hpm]
  have hv2 : voteLedgerStep (s.votes ++ [(⟨rid, uid, t, n1⟩ : DBVote)])
      rid uid t n2 = s.votes := by
    simp only [voteLedgerStep, hsingle]
    have hvt : ((⟨rid, uid, t, n1⟩ : DBVote).vote_type == t) = true := by simp
    rw [hvt]
    simp only [if_true]
    rw [List.filter_append, filter_not_of_filter_eq_nil hnv]
    simp [hpm]
  have hr1 : (s.reports.map (fun x =>
      if x.id == rid then
        ({ x with
            upvotes := countVotesOfType
              (s.votes ++ [(⟨rid, uid, t, n1⟩ : DBVote)]) rid VoteType.up,
            downvotes := countVotesOfType
              (s.votes ++ [(⟨rid, uid, t, n1⟩ : DBVote)]) rid VoteType.down,
            updated_at := some n1 } : DBReport)
      else x)).filter (fun x => x.id == rid) =
      [{ r with
          upvotes := countVotesOfType
            (s.votes ++ [(⟨rid, uid, t, n1⟩ : DBVote)]) rid VoteType.up,
          downvotes := countVotesOfType
            (s.votes ++ [(⟨rid, uid, t, n1⟩ : DBVote)]) rid VoteType.down,
          updated_at := some n1 }] := by
    rw [filter_map_comm (fun x : DBReport => x.id == rid)
      (fun x : DBReport =>
        { x with
          upvotes := countVotesOfType
            (s.votes ++ [(⟨rid, uid, t, n1⟩ : DBVote)]) rid VoteType.up,
          downvotes := countVotesOfType
            (s.votes ++ [(⟨rid, uid, t, n1⟩ : DBVote)]) rid VoteType.down,
          updated_at := some n1 })
      (fun a => rfl) s.reports, hr]
    rfl
  have h2 := voteOnReport_eq_of_filter ({ s with
      votes := s.votes ++ [(⟨rid, uid, t, n1⟩ : DBVote)],
      reports := s.reports.map (fun x =>
        if x.id == rid then
          { x with
            upvotes := countVotesOfType
              (s.votes ++ [(⟨rid, uid, t, n1⟩ : DBVote)]) rid VoteType.up,
            downvotes := countVotesOfType
              (s.votes ++ [(⟨rid, uid, t, n1⟩ : DBVote)]) rid VoteType.down,
            updated_at := some n1 }
        else x) } : DBState) rid t uid n2 _ hr1
  dsimp only at h2
  rw [hv2, ← hup, ← hdn] at h2
  rw [h1]
  refine ⟨rfl, ?_⟩
  dsimp only [Except.toOption, Option.bind, Option.map]
  rw [h2]
  dsimp only [Except.toOption, Option.map]
  rw [filter_map_comm (fun x : DBReport => x.id == rid)
    (fun x : DBReport =>
      { x with
          upvotes := r.upvotes
          downvotes := r.downvotes
          updated_at := some n2 })
    (fun a => rfl), hr1]
  rfl

/-- C3 (witness): the double up-vote on the concrete clean state inserts
and then deletes the vote row and restores the counts `(0, 0)`. -/
theorem voteOnReport_same_type_twice_net_zero_witness :
    (voteOnReport voteState "r1" VoteType.up "u1" 5).toOption.map
        (fun x => x.1.votes) =
      some (voteState.votes ++ [(⟨"r1", "u1", VoteType.up, 5⟩ : DBVote)]) ∧
    ((voteOnReport voteState "r1" VoteType.up "u1" 5).toOption.bind
        (fun x => (voteOnReport x.1 "r1" VoteType.up "u1" 6).toOption)).map
        (fun y => (y.1.votes, y.2.upvotes, y.2.downvotes,
          (y.1.reports.filter (fun x => x.id == "r1")).map
            (fun x => (x.upvotes, x.downvotes)))) =
      some (voteState.votes, reportR1.upvotes, reportR1.downvotes,
        [(reportR1.upvotes, reportR1.downvotes)]) :=
  voteOnReport_same_type_twice_net_zero voteState "r1" VoteType.up "u1" 5 6
    reportR1 (by decide) (by decide) (by decide) (by decide)

/-- A token issued by `generateToken` verifies successfully at its issue
instant. -/
theorem verifyToken_generateToken (u : DBUser) (now : Nat) :
    verifyToken (generateToken u now) now = .ok (generateToken u now).payload := by
  have hexp : ¬ (now + jwtExpiresInSeconds ≤ now) := by
    simp [jwtExpiresInSeconds]
  simp [verifyToken, jwtVerify, generateToken, hexp]

/-- C6: a correctly signed but expired token is rejected by `verifyToken`
yet accepted by `refreshToken` (which verifies ignoring expiration),
provided the referenced user still exists uniquely; the refreshed token is
fresh (not yet expired, verifiable) and names the same user.  `refreshToken`
fails with the 401 refresh error on an invalid signature and when the
referenced user no longer exists. -/
theorem refreshToken_accepts_expired_verifyToken_rejects (s : DBState)
    (tok : Token) (now : Nat) :
    (tok.sigValid = true → tok.expiresAt ≤ now →
      ∀ u, s.users.filter (fun x => x.id == tok.payload.userId) = [u] →
        verifyToken tok now = .error (createError "Invalid or expired token" 401) ∧
        refreshToken s tok now = .ok (generateToken u now) ∧
        now < (generateToken u now).expiresAt ∧
        verifyToken (generateToken u now) now = .ok (generateToken u now).payload ∧
        (generateToken u now).payload.userId = tok.payload.userId) ∧
    (tok.sigValid = false →
      refreshToken s tok now = .error (createError "Invalid refresh token" 401)) ∧
    (s.users.filter (fun x => x.id == tok.payload.userId) = [] →
      refreshToken s tok now = .error (createError "Invalid refresh token" 401)) := by
  refine ⟨?_, ?_, ?_⟩
  · intro hsig hexp u hu
    have huid : (u.id == tok.payload.userId) = true := by
      have hmem : u ∈ s.users.filter (fun x => x.id == tok.payload.userId) := by
        rw [hu]
        exact List.mem_singleton.mpr rfl
      exact (List.mem_filter.mp hmem).2
    refine ⟨?_, ?_, ?_, verifyToken_generateToken u now, ?_⟩
    · simp [verifyToken, jwtVerify, hsig, hexp]
    · simp [refreshToken, jwtVerify, getUserById, hsig, hu, singleRow]
    · simp [generateToken, jwtExpiresInSeconds]
    · simpa [generateToken] using eq_of_beq huid
  · intro hsig
    simp [refreshToken, jwtVerify, hsig]
  · intro hnone
    by_cases hsig : tok.sigValid = true
    · simp [refreshToken, jwtVerify, getUserById, hsig, hnone, singleRow]
    · simp [refreshToken, jwtVerify, hsig]

/-- C6 (witness): the concrete expired token for `voterU` is rejected by
`verifyToken` at instant 1000 but refreshed into `generateToken voterU
1000`; the token with the broken signature is rejected by
`refreshToken`. -/
theorem refreshToken_accepts_expired_witness :
    verifyToken expiredTok 1000 =
      .error (createError "Invalid or expired token" 401) ∧
    refreshToken voteState expiredTok 1000 = .ok (generateToken voterU 1000) ∧
    verifyToken (generateToken voterU 1000) 1000 =
      .ok (generateToken voterU 1000).payload ∧
    refreshToken voteState badSigTok 1000 =
      .error (createError "Invalid refresh token" 401) := by
  have h1 := (refreshToken_accepts_expired_verifyToken_rejects voteState
    expiredTok 1000).1 rfl (by decide) voterU (by decide)
  have h2 := (refreshToken_accepts_expired_verifyToken_rejects voteState
    badSigTok 1000).2.1 rfl
  exact ⟨h1.1, h1.2.1, h1.2.2.2.1, h2⟩

/-- C7: `loginUser` fails with the identical generic 401 message both when
no user carries the email and when the password comparison fails; it fails
with the distinct Google-directing 401 message when the account has no
password hash; and it issues a token on a successful comparison. -/
theorem loginUser_error_message_taxonomy (compare : String → String → Bool)
    (s : DBState) (c : LoginRequest) (now : Nat) :
    (getUserByEmail s c.email = none →
      loginUser compare s c now =
        .error (createError "Invalid email or password" 401)) ∧
    (∀ u h, getUserByEmail s c.email = some u → u.password_hash = some h →
      h ≠ "" → compare c.password h = false →
      loginUser compare s c now =
        .error (createError "Invalid email or password" 401)) ∧
    (∀ u, getUserByEmail s c.email = some u → u.password_hash = none →
      loginUser compare s c now =
        .error (createError
          "This account uses Google sign-in. Please use Google to log in." 401)) ∧
    (∀ u h, getUserByEmail s c.email = some u → u.password_hash = some h →
      h ≠ "" → compare c.password h = true →
      loginUser compare s c now = .ok (u, generateToken u now)) := by
  refine ⟨?_, ?_, ?_, ?_⟩
  · intro hnone
    simp [loginUser, hnone]
  · intro u h hu hh hne hcmp
    simp [loginUser, hu, hh, hne, hcmp]
  · intro u hu hh
    simp [loginUser, hu, hh]
  · intro u h hu hh hne hcmp
    simp [loginUser, hu, hh, hne, hcmp]

/-- C7 (witness): the four login outcomes on the concrete directory with
the concrete bcrypt stand-in. -/
theorem loginUser_error_message_taxonomy_witness :
    loginUser demoCompare authState ⟨"nobody@example.com", "x"⟩ 7 =
      .error (createError "Invalid email or password" 401) ∧
    loginUser demoCompare authState ⟨"voter@example.com", "wrong"⟩ 7 =
      .error (createError "Invalid email or password" 401) ∧
    loginUser demoCompare authState ⟨"gonly@example.com", "x"⟩ 7 =
      .error (createError
        "This account uses Google sign-in. Please use Google to log in." 401) ∧
    loginUser demoCompare authState ⟨"voter@example.com", "alpine"⟩ 7 =
      .ok (voterU, generateToken voterU 7) := by
  refine ⟨?_, ?_, ?_, ?_⟩
  · exact (loginUser_error_message_taxonomy demoCompare authState
      ⟨"nobody@example.com", "x"⟩ 7).1 (by decide)
  · exact (loginUser_error_message_taxonomy demoCompare authState
      ⟨"voter@example.com", "wrong"⟩ 7).2.1 voterU "h:alpine" (by decide)
      (by decide) (by decide) (by decide)
  · exact (loginUser_error_message_taxonomy demoCompare authState
      ⟨"gonly@example.com", "x"⟩ 7).2.2.1 googleOnlyU (by decide) (by decide)
  · exact (loginUser_error_message_taxonomy demoCompare authState
      ⟨"voter@example.com", "alpine"⟩ 7).2.2.2 voterU "h:alpine" (by decide)
      (by decide) (by decide) (by decide)

/-- C9: `POST /auth/create-admin` carries no authentication middleware,
and for a registration body whose email is not yet in the directory it
creates a user with `is_admin = true` and returns that user with a token
that names it and verifies successfully. -/
theorem createAdmin_route_unauthenticated_creates_admin
    (hash : String → String) (s : DBState) (r : RegisterRequest)
    (newId : String) (now : Nat)
    (hfresh : s.users.filter (fun u => u.email == r.email) = []) :
    Middleware.authenticateToken ∉ createAdminMiddlewares ∧
    createAdminHandler hash s r newId now =
      .ok ({ s with users := s.users ++
              [({ id := newId, email := r.email, name := r.name,
                  password_hash := some (hash r.password), avatar := none,
                  location := none, google_id := none, is_admin := true,
                  created_at := now, updated_at := none } : DBUser)] },
        ({ id := newId, email := r.email, name := r.name,
            password_hash := some (hash r.password), avatar := none,
            location := none, google_id := none, is_admin := true,
            created_at := now, updated_at := none } : DBUser),
        generateToken
          ({ id := newId, email := r.email, name := r.name,
              password_hash := some (hash r.password), avatar := none,
              location := none, google_id := none, is_admin := true,
              created_at := now, updated_at := none } : DBUser) now) ∧
    ({ id := newId, email := r.email, name := r.name,
        password_hash := some (hash r.password), avatar := none,
        location := none, google_id := none, is_admin := true,
        created_at := now, updated_at := none } : DBUser).is_admin = true ∧
    (generateToken
        ({ id := newId, email := r.email, name := r.name,
            password_hash := some (hash r.password), avatar := none,
            location := none, google_id := none, is_admin := true,
            created_at := now, updated_at := none } : DBUser) now).payload.userId
      = newId ∧
    verifyToken
        (generateToken
          ({ id := newId, email := r.email, name := r.name,
              password_hash := some (hash r.password), avatar := none,
              location := none, google_id := none, is_admin := true,
              created_at := now, updated_at := none } : DBUser) now) now =
      .ok (generateToken
          ({ id := newId, email := r.email, name := r.name,
              password_hash := some (hash r.password), avatar := none,
              location := none, google_id := none, is_admin := true,
              created_at := now, updated_at := none } : DBUser) now).payload := by
  have hnone : getUserByEmail s r.email = none := by
    simp only [getUserByEmail, hfresh]
    rfl
  have hany : (s.users.any (fun u => u.email == r.email)) = false :=
    any_eq_false_of_filter_eq_nil hfresh
  refine ⟨by decide, ?_, rfl, rfl, verifyToken_generateToken _ now⟩
  simp only [createAdminHandler, registerUser, hnone, createPasswordUser, hany]
  rfl

/-- C9 (witness): registering `adminRegReq` through the route handler on
the empty directory yields an admin user and a verifiable token. -/
theorem createAdmin_route_unauthenticated_creates_admin_witness :
    Middleware.authenticateToken ∉ createAdminMiddlewares ∧
    (createAdminHandler demoHash emptyState adminRegReq "adm-1" 30).toOption.map
        (fun res => (res.2.1.is_admin, res.2.2.payload.userId,
          verifyToken res.2.2 30 == .ok res.2.2.payload)) =
      some (true, "adm-1", true) := by
  have h := createAdmin_route_unauthenticated_creates_admin demoHash emptyState
    adminRegReq "adm-1" 30 (by decide)
  refine ⟨h.1, ?_⟩
  rw [h.2.1]
  decide

/-- C10: a non-admin owner updating a report with a body that carries a
`status` value succeeds; the provided title, description, category,
location, address and image are applied to the stored row, but the status
change is silently dropped: both the returned report and the stored row
keep the old status. -/
theorem updateReport_nonadmin_silently_drops_status (s : DBState)
    (rid uid : String) (u : UpdateReportRequest) (now : Nat) (r : DBReport)
    (tt dd cc aa ii st : String) (la lo : Int)
    (hr : s.reports.filter (fun x => x.id == rid) = [r])
    (hown : r.user_id = uid)
    (htt : u.title = some tt) (htne : tt ≠ "")
    (hdd : u.description = some dd) (hdne : dd ≠ "")
    (hcc : u.category = some cc) (hcne : cc ≠ "")
    (hloc : u.location = some (la, lo))
    (haa : u.address = some aa) (hane : aa ≠ "")
    (hii : u.image = some ii)
    (hst : u.status = some st) :
    ((updateReport s rid u uid false now).toOption.map (fun x =>
      (x.2.title, x.2.status,
        (x.1.reports.filter (fun y => y.id == rid)).map (fun y =>
          (y.title, y.description, y.category, y.latitude, y.longitude,
            y.address, y.image, y.status))))) =
      some (tt, r.status,
        [(tt, dd, cc, la, lo, aa, some ii, r.status)]) := by
  have hperm : (!(false : Bool) && (r.user_id != uid)) = false := by
    simp [hown]
  rw [updateReport_eq_of_filter s rid u uid false now r hr hperm]
  dsimp only [Except.toOption, Option.map]
  rw [filter_map_comm (fun y : DBReport => y.id == rid)
    (fun y : DBReport => applyReportUpdate y u false now)
    (fun a => rfl), hr]
  simp [applyReportUpdate, transformReport, htt, hdd, hcc, hloc, haa, hii,
    hst, htne, hdne, hcne, hane]

/-- C10 (witness): the concrete owner update with `ownerUpdateBody` keeps
status `"submitted"` while applying every other field. -/
theorem updateReport_nonadmin_silently_drops_status_witness :
    ((updateReport voteState "r1" ownerUpdateBody "owner1" false 9).toOption.map
      (fun x => (x.2.title, x.2.status,
        (x.1.reports.filter (fun y => y.id == "r1")).map (fun y =>
          (y.title, y.description, y.category, y.latitude, y.longitude,
            y.address, y.image, y.status))))) =
      some ("Bigger pothole", reportR1.status,
        [("Bigger pothole", "Worse now", "waste", 43, 24, "Main St 9",
          some "https://img.example.com/a.png", reportR1.status)]) :=
  updateReport_nonadmin_silently_drops_status voteState "r1" "owner1"
    ownerUpdateBody 9 reportR1 "Bigger pothole" "Worse now" "waste"
    "Main St 9" "https://img.example.com/a.png" "resolved" 43 24
    (by decide) (by decide) (by decide) (by decide) (by decide) (by decide)
    (by decide) (by decide) (by decide) (by decide) (by decide) (by decide)
    (by decide)

end FixMyTown
